import Mathlib

/-!
Shallow embedding of the sln-runner repository (src/main.rs, src/app/app.rs,
src/app/util.rs): solution discovery, solution-file parsing, launch-profile
detection, the build-then-run orchestrator, and the two-level navigation
state machine, together with theorems settling the specification claims.

Rust string primitives (`str::trim`, `str::split`, `str::lines`,
`str::trim_matches`, `str::starts_with`) are re-implemented here over
`List Char` with the semantics documented for Rust, so that every
definition is executable.
-/

set_option maxRecDepth 4000

/-- Unicode White_Space test, matching Rust `char::is_whitespace`. -/
def isRustWhitespace (c : Char) : Bool :=
  [0x09, 0x0A, 0x0B, 0x0C, 0x0D, 0x20, 0x85, 0xA0, 0x1680,
   0x2000, 0x2001, 0x2002, 0x2003, 0x2004, 0x2005, 0x2006, 0x2007,
   0x2008, 0x2009, 0x200A, 0x2028, 0x2029, 0x202F, 0x205F, 0x3000].contains c.toNat

/-- Rust `str::trim`: remove leading and trailing whitespace. -/
def rust_trim (s : String) : String :=
  String.mk (((s.toList.dropWhile isRustWhitespace).reverse.dropWhile isRustWhitespace).reverse)

/-- Rust `str::trim_matches(pat)` for a `char` pattern: repeatedly remove the
character from both ends. -/
def rust_trim_matches (pat : Char) (s : String) : String :=
  String.mk (((s.toList.dropWhile (· == pat)).reverse.dropWhile (· == pat)).reverse)

/-- Helper for `rust_split`: accumulate the current field (reversed) while
scanning. -/
def split_char_aux (sep : Char) : List Char → List Char → List (List Char)
  | [], acc => [acc.reverse]
  | c :: cs, acc =>
    if c == sep then acc.reverse :: split_char_aux sep cs []
    else split_char_aux sep cs (c :: acc)

/-- Rust `str::split(sep)` for a `char` separator, collected to a list.
`"" → [""]`, `"a,,b" → ["a", "", "b"]`. -/
def rust_split (sep : Char) (s : String) : List String :=
  (split_char_aux sep s.toList []).map String.mk

/-- Drop one trailing carriage return, for `\r\n` line terminators. -/
def strip_cr (l : List Char) : List Char :=
  if l.getLast? = some '\r' then l.dropLast else l

/-- Rust `str::lines`: split at `\n` or `\r\n`; a final line terminator is
optional and produces no trailing empty line; a trailing `\r` not followed
by `\n` stays part of the last line. -/
def rust_lines (s : String) : List String :=
  match (split_char_aux '\n' s.toList []).reverse with
  | [] => []
  | last :: revInit =>
    let init := (revInit.reverse).map strip_cr
    (if last = [] then init else init ++ [last]).map String.mk

/-- Boolean character-list prefix test used by `starts_with`. -/
def starts_with_chars : List Char → List Char → Bool
  | [], _ => true
  | _ :: _, [] => false
  | p :: ps, c :: cs => p == c && starts_with_chars ps cs

/-- Rust `str::starts_with(pat)` for a string pattern. -/
def starts_with (s pat : String) : Bool :=
  starts_with_chars pat.toList s.toList

/-- Error-kind values of `std::io::ErrorKind` used by the program:
`NotFound` and `Other`. -/
inductive IOErrorKind where
  | notFound
  | otherKind
deriving DecidableEq

/-- A `std::io::Error`: a kind plus its message. -/
structure IOError where
  kind : IOErrorKind
  msg : String
deriving DecidableEq

/-- An error produced by the `walkdir` traversal for one entry (opaque). -/
structure WalkError where
  msg : String
deriving DecidableEq

/-- One successful `walkdir` entry: its display path and the value of
`Path::extension()` as computed by the traversal. -/
structure DirEntry where
  path : String
  ext : Option String
deriving DecidableEq

/-- Projection `Result::ok` on a walk item. -/
def walk_ok : Except WalkError DirEntry → Option DirEntry
  | .ok e => some e
  | .error _ => none

/-- Embedding of `find_sln_files` (src/app/util.rs lines 4-12). The walkdir
iterator is modelled as the list of items it yields, each either an entry or
an error. The code maps `filter_map(|e| e.ok())` over the items, keeps
entries whose extension equals `sln`, takes their paths, and wraps the
result in `Ok` - no error value is ever constructed. -/
def find_sln_files (items : List (Except WalkError DirEntry)) :
    Except IOError (List String) :=
  Except.ok (((items.filterMap walk_ok).filter
    (fun e => e.ext == some "sln")).map (fun e => e.path))

/-- Per-line extraction of `parse_sln_for_projects` (src/app/util.rs lines
16-23): if the trimmed line starts with `Project(`, split the original line
on commas, take field index 1 when present, trim it and strip wrapping
double quotes; otherwise contribute nothing. -/
def sln_extract_line (line : String) : Option String :=
  if starts_with (rust_trim line) "Project(" then
    ((rust_split ',' line)[1]?).map (fun s => rust_trim_matches '"' (rust_trim s))
  else none

/-- Pure core of `parse_sln_for_projects`: apply the per-line extraction to
every line of the file text, in order. -/
def parse_sln_text (text : String) : List String :=
  (rust_lines text).filterMap sln_extract_line

/-- Embedding of `parse_sln_for_projects` (src/app/util.rs lines 14-25):
the `read_to_string` result is passed in; a read error propagates with `?`,
otherwise the text is parsed. -/
def parse_sln_for_projects (read_result : Except IOError String) :
    Except IOError (List String) :=
  match read_result with
  | .error e => .error e
  | .ok text => .ok (parse_sln_text text)

/-- A JSON value as produced by `serde_json`; an object is its field list in
the parser's key-iteration order. -/
inductive Json where
  | null
  | bool (b : Bool)
  | num (n : Int)
  | str (s : String)
  | arr (elems : List Json)
  | obj (fields : List (String × Json))

/-- Embedding of `serde_json::Value::get(key)`: on an object, look the key
up; on any other value, `None`. -/
def jsonGet (j : Json) (key : String) : Option Json :=
  match j with
  | .obj fields => (fields.find? (fun kv => kv.1 == key)).map (fun kv => kv.2)
  | _ => none

/-- Exit status plus captured stderr of the build subprocess: the parts of
`std::process::Output` the program reads (`status.success()` and `stderr`
through `from_utf8_lossy`). -/
structure BuildOutput where
  success : Bool
  stderr : String
deriving DecidableEq

/-- The external world the program touches, as pure functions: file reads,
JSON parsing (`None` models a parse failure), `Path::is_file`,
`Path::parent`, `Path::join`, the build subprocess (`Command::output`, whose
`Except.error` case is a spawn/IO failure), and the run subprocess spawn
(`Command::spawn`, which yields no exit status - the child is detached). -/
structure Env where
  fs : String → Except IOError String
  parseJson : String → Option Json
  isFile : String → Bool
  parent : String → Option String
  join : String → String → String
  build : String → Except IOError BuildOutput
  spawnRun : String → Option String → Except IOError Unit

/-- The `App` session state (src/app/app.rs lines 29-37): `selected` is
`ListState::selected()`. -/
structure App where
  exit : Bool
  sln_files : List String
  selected_sln : String
  projects : List String
  selected : Option Nat
  showing_projects : Bool
  logs : List String
deriving DecidableEq

/-- Observable side effects of one step: `println!`, `eprintln!`, the build
invocation, and the detached run spawn with its current directory and
optional `--launch-profile` argument. -/
inductive Effect where
  | printLn (s : String)
  | eprintLn (s : String)
  | buildInvoked (projectPath : String)
  | runSpawned (dir : String) (profile : Option String)
deriving DecidableEq

/-- How a step ends: normally, with a propagating `io::Error` (the `?`
operator), or in a panic (out-of-bounds indexing). -/
inductive Outcome where
  | ok
  | ioErr (e : IOError)
  | panicked
deriving DecidableEq

/-- Result of one operation: the session state after whatever mutations
happened, the outcome, and the effects emitted in order. -/
structure StepOut where
  state : App
  outcome : Outcome
  effects : List Effect
deriving DecidableEq

/-- Embedding of `usize::saturating_add_signed`: on `Nat`, a negative sum
saturates at 0 (the saturation at `usize::MAX` is irrelevant below it). -/
def saturating_add_signed (n : Nat) (d : Int) : Nat :=
  ((n : Int) + d).toNat

/-- Length of the list the current mode displays (`max_len` in
`move_selection`). -/
def current_len (a : App) : Nat :=
  if a.showing_projects then a.projects.length else a.sln_files.length

/-- Embedding of `App::move_selection` (src/app/app.rs lines 170-183):
saturating add of the delta, then clamp to `max_len.saturating_sub(1)`
(`Nat` subtraction is saturating). No selection means no change. -/
def move_selection (a : App) (delta : Int) : App :=
  match a.selected with
  | none => a
  | some current =>
    { a with
        selected := some (Nat.min (saturating_add_signed current delta)
          (current_len a - 1)) }

/-- Embedding of `App::detect_launch_profile` (src/app/app.rs lines
195-204): read the file, parse as JSON, take the `profiles` key as an
object, return its first key; every failure collapses to `none`. -/
def detect_launch_profile (env : Env) (path : String) : Option String :=
  match env.fs path with
  | .error _ => none
  | .ok contents =>
    match env.parseJson contents with
    | none => none
    | some json =>
      match jsonGet json "profiles" with
      | some (Json.obj fields) => (fields.map (fun kv => kv.1)).head?
      | _ => none

/-- The status line printed for the detected profile, or its absence
(src/app/app.rs lines 250-255). -/
def profile_msg (prof : Option String) : Effect :=
  match prof with
  | some p => Effect.printLn ("Detected launch profile: " ++ p)
  | none => Effect.printLn "No launch profile found, running normally..."

/-- Embedding of `App::run_selected_project` (src/app/app.rs lines
206-265). `self.projects[selected]` out of range is a panic; `Path::parent`
failures surface as `NotFound` errors; a non-zero build status reports the
stderr and returns the `Build failed` error before any run spawn; on build
success the run command is spawned detached in the resolved project
directory with the detected profile, and the child is never awaited. -/
def run_selected_project (env : Env) (a : App) : StepOut :=
  match a.selected with
  | none => ⟨a, .ioErr ⟨.notFound, "No project selected"⟩, []⟩
  | some selected =>
    match a.projects[selected]? with
    | none => ⟨a, .panicked, []⟩
    | some project =>
      let fx0 := [Effect.printLn ("Running project: " ++ project)]
      match env.parent a.selected_sln with
      | none => ⟨a, .ioErr ⟨.notFound, "Invalid solution path"⟩, fx0⟩
      | some sln_dir =>
        let project_path := env.join sln_dir project
        match (if env.isFile project_path then env.parent project_path
               else some project_path) with
        | none => ⟨a, .ioErr ⟨.notFound, "Cannot determine project directory"⟩, fx0⟩
        | some project_dir =>
          let fx1 := fx0 ++ [Effect.buildInvoked project_path]
          match env.build project_path with
          | .error e => ⟨a, .ioErr e, fx1⟩
          | .ok out =>
            if out.success then
              let launch_settings_path :=
                env.join (env.join project_dir "Properties") "launchSettings.json"
              let launch_profile := detect_launch_profile env launch_settings_path
              let fx2 := fx1 ++ [Effect.printLn "Build successful! Running ...",
                                 profile_msg launch_profile,
                                 Effect.runSpawned project_dir launch_profile]
              match env.spawnRun project_dir launch_profile with
              | .error e => ⟨a, .ioErr e, fx2⟩
              | .ok _ => ⟨a, .ok, fx2⟩
            else
              ⟨a, .ioErr ⟨.otherKind, "Build failed"⟩,
               fx1 ++ [Effect.eprintLn ("Build failed: " ++ out.stderr)]⟩

/-- Embedding of `App::select_solution` (src/app/app.rs lines 267-275).
The assignment to `selected_sln` happens before the parse, so the state
carries it even when the parse errors; indexing out of range is a panic;
on success the project list is replaced, the mode switches to projects and
the selection resets to 0. -/
def select_solution (env : Env) (a : App) : StepOut :=
  match a.selected with
  | none => ⟨a, .ok, []⟩
  | some selected =>
    match a.sln_files[selected]? with
    | none => ⟨a, .panicked, []⟩
    | some sln =>
      let a1 := { a with selected_sln := sln }
      match parse_sln_for_projects (env.fs sln) with
      | .error e => ⟨a1, .ioErr e, []⟩
      | .ok ps =>
        ⟨{ a1 with projects := ps, showing_projects := true, selected := some 0 },
         .ok, []⟩

/-- Embedding of `App::on_enter_key` (src/app/app.rs lines 185-193). -/
def on_enter_key (env : Env) (a : App) : StepOut :=
  if a.showing_projects then run_selected_project env a
  else select_solution env a

/-- Embedding of `App::add_log` (src/app/app.rs lines 114-119): push, then
drop the oldest entry once more than 100 are held. -/
def add_log (a : App) (message : String) : App :=
  let logs := a.logs ++ [message]
  { a with logs := if logs.length > 100 then logs.tail else logs }

/-- One key press, as dispatched by the event match in `App::run`
(src/app/app.rs lines 90-103). -/
inductive KeyCode where
  | esc
  | char (c : Char)
  | up
  | down
  | enter
  | otherKey
deriving DecidableEq

/-- Embedding of the key dispatch of `App::run` (src/app/app.rs lines
90-103) for one key-press event: Esc or `q` set the exit flag, Up/Down move
the selection, Enter runs `on_enter_key` and - only when it returned `Ok` -
appends the `Selected item at index` log line; every other key is ignored.
An error from `on_enter_key` propagates through the `?` operator. -/
def handle_key (env : Env) (key : KeyCode) (a : App) : StepOut :=
  match key with
  | .esc => ⟨{ a with exit := true }, .ok, []⟩
  | .char c =>
    if c = 'q' then ⟨{ a with exit := true }, .ok, []⟩ else ⟨a, .ok, []⟩
  | .up => ⟨move_selection a (-1), .ok, []⟩
  | .down => ⟨move_selection a 1, .ok, []⟩
  | .enter =>
    let s := on_enter_key env a
    match s.outcome with
    | .ok =>
      ⟨add_log s.state
         ("Selected item at index: " ++ toString (s.state.selected.getD 0)),
       .ok, s.effects⟩
    | o => ⟨s.state, o, s.effects⟩
  | .otherKey => ⟨a, .ok, []⟩

/-- The interactive loop of `App::run` (src/app/app.rs lines 68-107) over a
finite list of observed key presses: the loop checks the exit flag before
each iteration, and a propagating error or a panic ends the session with
the remaining input unconsumed. -/
def run_session (env : Env) (a : App) : List KeyCode → StepOut
  | [] => ⟨a, .ok, []⟩
  | k :: ks =>
    if a.exit then ⟨a, .ok, []⟩
    else
      let s := handle_key env k a
      match s.outcome with
      | .ok =>
        let s2 := run_session env s.state ks
        ⟨s2.state, s2.outcome, s.effects ++ s2.effects⟩
      | _ => s

/-- Embedding of `App::new` (src/app/app.rs lines 40-60): discover the
solutions (the walk items are the traversal's output), fail with `NotFound`
when none were found, parse the first solution, and build the initial
state: not exited, selection `Some(0)`, solutions mode, no logs. -/
def App.new (env : Env) (items : List (Except WalkError DirEntry)) :
    Except IOError App :=
  match find_sln_files items with
  | .error e => .error e
  | .ok sln_files =>
    match sln_files.head? with
    | none => .error ⟨.notFound, "No .sln files found"⟩
    | some selected_sln =>
      match parse_sln_for_projects (env.fs selected_sln) with
      | .error e => .error e
      | .ok projects =>
        .ok ⟨false, sln_files, selected_sln, projects, some 0, false, []⟩

/-- A concrete environment whose build command always exits non-zero with
stderr `boom`, for exercising the build-failure path. -/
def env_build_fail : Env where
  fs := fun _ => Except.error ⟨.notFound, "missing"⟩
  parseJson := fun _ => none
  isFile := fun _ => false
  parent := fun _ => some "root"
  join := fun d p => d ++ "/" ++ p
  build := fun _ => Except.ok ⟨false, "boom"⟩
  spawnRun := fun _ _ => Except.ok ()

/-- A concrete projects-mode state with one project and selection 0. -/
def app_one_project : App :=
  ⟨false, ["root/a.sln"], "root/a.sln", ["p.csproj"], some 0, true, []⟩

/-- A concrete projects-mode state whose project list is empty while the
selection index is `Some(0)`, as produced by confirming a solution that
parses to zero projects. -/
def app_no_projects : App :=
  ⟨false, ["root/a.sln"], "root/a.sln", [], some 0, true, []⟩

/-- A concrete projects-mode state with an empty project list and a stale
selection index 5. -/
def app_idx_five : App :=
  ⟨false, ["root/a.sln"], "root/a.sln", [], some 5, true, []⟩

/-- A concrete projects-mode state with no selection index at all. -/
def app_none_sel : App :=
  ⟨false, ["root/a.sln"], "root/a.sln", [], none, true, []⟩

/-- A concrete solutions-mode state with two solutions, selection on the
second, and a three-element stale project list. -/
def app_two_sln : App :=
  ⟨false, ["root/a.sln", "root/b.sln"], "root/a.sln", ["x", "y", "z"], some 1, false, []⟩

/-- A concrete environment in which only `root/b.sln` is readable and its
text contains no project lines. -/
def env_sln : Env where
  fs := fun p => if p = "root/b.sln" then Except.ok "no project lines here"
                 else Except.error ⟨.notFound, "missing"⟩
  parseJson := fun _ => none
  isFile := fun _ => false
  parent := fun _ => none
  join := fun d p => d ++ "/" ++ p
  build := fun _ => Except.ok ⟨false, ""⟩
  spawnRun := fun _ _ => Except.ok ()

/-- A concrete environment whose only readable file is a launch-settings
document with two profiles, `https` before `http` in iteration order. -/
def env_cfg : Env where
  fs := fun p => if p = "proj/Properties/launchSettings.json" then Except.ok "cfg"
                 else Except.error ⟨.notFound, "missing"⟩
  parseJson := fun c =>
    if c = "cfg" then
      some (Json.obj [("profiles", Json.obj [("https", Json.null), ("http", Json.null)])])
    else none
  isFile := fun _ => false
  parent := fun _ => none
  join := fun d p => d ++ "/" ++ p
  build := fun _ => Except.ok ⟨false, ""⟩
  spawnRun := fun _ _ => Except.ok ()

/-- A concrete environment for a successful build-and-run: the joined
project path is a regular file whose parent is `root/proj`, the launch
settings there name the profile `https`, the build succeeds and the run
spawn succeeds. -/
def env_run : Env where
  fs := fun p => if p = "root/proj/Properties/launchSettings.json" then Except.ok "cfg"
                 else Except.error ⟨.notFound, "missing"⟩
  parseJson := fun c =>
    if c = "cfg" then some (Json.obj [("profiles", Json.obj [("https", Json.null)])])
    else none
  isFile := fun p => p = "root/proj/app.csproj"
  parent := fun p => if p = "root/a.sln" then some "root"
                     else if p = "root/proj/app.csproj" then some "root/proj"
                     else none
  join := fun d p => d ++ "/" ++ p
  build := fun _ => Except.ok ⟨true, ""⟩
  spawnRun := fun _ _ => Except.ok ()

/-- A concrete projects-mode state whose single project reference resolves
to the regular file `root/proj/app.csproj` under `env_run`. -/
def app_c8 : App :=
  ⟨false, ["root/a.sln"], "root/a.sln", ["proj/app.csproj"], some 0, true, []⟩

/-- The orchestrator never mutates the session state (`run_selected_project`
takes `&self`). -/
theorem run_selected_project_state (env : Env) (a : App) :
    (run_selected_project env a).state = a := by
  unfold run_selected_project
  repeat' first | split | dsimp only

/-- Appending a log line changes no field other than `logs`. -/
theorem add_log_fields (a : App) (m : String) :
    (add_log a m).exit = a.exit ∧
    (add_log a m).sln_files = a.sln_files ∧
    (add_log a m).selected_sln = a.selected_sln ∧
    (add_log a m).projects = a.projects ∧
    (add_log a m).selected = a.selected ∧
    (add_log a m).showing_projects = a.showing_projects := by
  simp [add_log]

/-- Moving the selection changes no field other than `selected`. -/
theorem move_selection_fields (a : App) (d : Int) :
    (move_selection a d).exit = a.exit ∧
    (move_selection a d).sln_files = a.sln_files ∧
    (move_selection a d).selected_sln = a.selected_sln ∧
    (move_selection a d).projects = a.projects ∧
    (move_selection a d).showing_projects = a.showing_projects ∧
    (move_selection a d).logs = a.logs := by
  unfold move_selection
  split <;> simp_all

/-- Selecting a solution never mutates the discovered solution list. -/
theorem select_solution_sln_files (env : Env) (a : App) :
    (select_solution env a).state.sln_files = a.sln_files := by
  cases h1 : a.selected with
  | none => simp [select_solution, h1]
  | some i =>
    cases h2 : a.sln_files[i]? with
    | none => simp [select_solution, h1, h2]
    | some sln =>
      cases h3 : parse_sln_for_projects (env.fs sln) with
      | error e => simp [select_solution, h1, h2, h3]
      | ok ps => simp [select_solution, h1, h2, h3]

/-- After `select_solution` the active solution is unchanged or is an
element of the solution list (the element at the selection index). -/
theorem select_solution_member (env : Env) (a : App) :
    (select_solution env a).state.selected_sln = a.selected_sln ∨
    (select_solution env a).state.selected_sln ∈ a.sln_files := by
  cases h1 : a.selected with
  | none => left; simp [select_solution, h1]
  | some i =>
    cases h2 : a.sln_files[i]? with
    | none => left; simp [select_solution, h1, h2]
    | some sln =>
      cases h3 : parse_sln_for_projects (env.fs sln) with
      | error e =>
        right
        simp only [select_solution, h1, h2, h3]
        exact List.getElem?_mem h2
      | ok ps =>
        right
        simp only [select_solution, h1, h2, h3]
        exact List.getElem?_mem h2

/-- After `select_solution` the mode is unchanged or has become projects
mode. -/
theorem select_solution_mode (env : Env) (a : App) :
    (select_solution env a).state.showing_projects = a.showing_projects ∨
    (select_solution env a).state.showing_projects = true := by
  cases h1 : a.selected with
  | none => left; simp [select_solution, h1]
  | some i =>
    cases h2 : a.sln_files[i]? with
    | none => left; simp [select_solution, h1, h2]
    | some sln =>
      cases h3 : parse_sln_for_projects (env.fs sln) with
      | error e => left; simp [select_solution, h1, h2, h3]
      | ok ps => right; simp [select_solution, h1, h2, h3]

/-- The Enter handler never mutates the discovered solution list. -/
theorem on_enter_key_sln_files (env : Env) (a : App) :
    (on_enter_key env a).state.sln_files = a.sln_files := by
  unfold on_enter_key
  by_cases hm : a.showing_projects = true
  · simp [hm, run_selected_project_state]
  · simp [hm, select_solution_sln_files]

/-- After the Enter handler the active solution is unchanged or is an
element of the solution list. -/
theorem on_enter_key_member (env : Env) (a : App) :
    (on_enter_key env a).state.selected_sln = a.selected_sln ∨
    (on_enter_key env a).state.selected_sln ∈ a.sln_files := by
  unfold on_enter_key
  by_cases hm : a.showing_projects = true
  · left; simp [hm, run_selected_project_state]
  · simp only [hm, Bool.false_eq_true, ite_false]
    exact select_solution_member env a

/-- After the Enter handler the mode is unchanged or has become projects
mode. -/
theorem on_enter_key_mode (env : Env) (a : App) :
    (on_enter_key env a).state.showing_projects = a.showing_projects ∨
    (on_enter_key env a).state.showing_projects = true := by
  unfold on_enter_key
  by_cases hm : a.showing_projects = true
  · left; simp [hm, run_selected_project_state]
  · have hb : a.showing_projects = false := by simpa using hm
    simp only [hm, Bool.false_eq_true, ite_false]
    rcases select_solution_mode env a with h | h
    · left; rw [h, hb]
    · right; exact h

/-- One key press never mutates the discovered solution list. -/
theorem handle_key_sln_files (env : Env) (k : KeyCode) (a : App) :
    (handle_key env k a).state.sln_files = a.sln_files := by
  cases k with
  | esc => rfl
  | otherKey => rfl
  | up => exact (move_selection_fields a (-1)).2.1
  | down => exact (move_selection_fields a 1).2.1
  | char c =>
    by_cases hc : c = 'q' <;> simp [handle_key, hc]
  | enter =>
    simp only [handle_key]
    cases ho : (on_enter_key env a).outcome with
    | ok => simp [ho, add_log_fields, on_enter_key_sln_files]
    | ioErr e => simp [ho, on_enter_key_sln_files]
    | panicked => simp [ho, on_enter_key_sln_files]

/-- After one key press the active solution is unchanged or is an element
of the solution list. -/
theorem handle_key_member (env : Env) (k : KeyCode) (a : App) :
    (handle_key env k a).state.selected_sln = a.selected_sln ∨
    (handle_key env k a).state.selected_sln ∈ a.sln_files := by
  cases k with
  | esc => left; rfl
  | otherKey => left; rfl
  | up => left; exact (move_selection_fields a (-1)).2.2.1
  | down => left; exact (move_selection_fields a 1).2.2.1
  | char c =>
    left
    by_cases hc : c = 'q' <;> simp [handle_key, hc]
  | enter =>
    simp only [handle_key]
    rcases on_enter_key_member env a with h | h <;>
      cases ho : (on_enter_key env a).outcome <;>
        simp [ho, add_log_fields, h]

/-- One key press either keeps the mode or - only on Enter - has the mode
equal to projects afterwards. -/
theorem handle_key_mode (env : Env) (k : KeyCode) (a : App) :
    (handle_key env k a).state.showing_projects = a.showing_projects ∨
    ((handle_key env k a).state.showing_projects = true ∧ k = KeyCode.enter) := by
  cases k with
  | esc => left; rfl
  | otherKey => left; rfl
  | up => left; exact (move_selection_fields a (-1)).2.2.2.2.1
  | down => left; exact (move_selection_fields a 1).2.2.2.2.1
  | char c =>
    left
    by_cases hc : c = 'q' <;> simp [handle_key, hc]
  | enter =>
    simp only [handle_key]
    rcases on_enter_key_mode env a with h | h <;>
      cases ho : (on_enter_key env a).outcome <;>
        simp [ho, add_log_fields, h]

/-- Once the session is in projects mode it stays there for the rest of the
session, whatever keys arrive. -/
theorem run_session_mode (env : Env) (inputs : List KeyCode) (a : App)
    (h : a.showing_projects = true) :
    (run_session env a inputs).state.showing_projects = true := by
  induction inputs generalizing a with
  | nil => exact h
  | cons k ks ih =>
    simp only [run_session]
    by_cases he : a.exit = true
    · simp [he, h]
    · have hm : (handle_key env k a).state.showing_projects = true := by
        rcases handle_key_mode env k a with hh | hh
        · rw [hh]; exact h
        · exact hh.1
      simp only [he, Bool.false_eq_true, ite_false]
      cases ho : (handle_key env k a).outcome with
      | ok => simpa using ih _ hm
      | ioErr e => simpa [ho] using hm
      | panicked => simpa [ho] using hm

/-- Over a whole session the solution list is never mutated and the active
solution stays an element of it. -/
theorem run_session_sln (env : Env) (inputs : List KeyCode) (a : App)
    (h : a.selected_sln ∈ a.sln_files) :
    (run_session env a inputs).state.sln_files = a.sln_files ∧
    (run_session env a inputs).state.selected_sln ∈ a.sln_files := by
  induction inputs generalizing a with
  | nil => exact ⟨rfl, h⟩
  | cons k ks ih =>
    simp only [run_session]
    by_cases he : a.exit = true
    · simp [he, h]
    · have hf := handle_key_sln_files env k a
      have hmem : (handle_key env k a).state.selected_sln ∈
          (handle_key env k a).state.sln_files := by
        rw [hf]
        rcases handle_key_member env k a with hh | hh
        · rw [hh]; exact h
        · exact hh
      simp only [he, Bool.false_eq_true, ite_false]
      cases ho : (handle_key env k a).outcome with
      | ok =>
        obtain ⟨ih1, ih2⟩ := ih (handle_key env k a).state hmem
        constructor
        · simpa using ih1.trans hf
        · rw [hf] at ih2
          simpa using ih2
      | ioErr e =>
        constructor
        · simpa [ho] using hf
        · simp only [ho]
          rw [hf] at hmem
          exact hmem
      | panicked =>
        constructor
        · simpa [ho] using hf
        · simp only [ho]
          rw [hf] at hmem
          exact hmem

/-- C3, counterexample: with a traversal whose only item is the error for
an unopenable root, discovery returns `Ok` with an empty list - not the
I/O error the claim asserts. -/
theorem C3_counterexample :
    find_sln_files [Except.error ⟨"cannot open root directory"⟩] = Except.ok [] := by
  rfl

/-- C3 (amended): Solution Discovery never returns an I/O error - every
traversal error, the root's included, is silently skipped - and when the
unopenable root leaves the list empty, startup fails with the not-found
condition `No .sln files found` instead. -/
theorem C3_amended_theorem :
    (∀ items, ∃ files, find_sln_files items = Except.ok files) ∧
    (∀ w items, find_sln_files (Except.error w :: items) = find_sln_files items) ∧
    (∀ env w, App.new env [Except.error w] =
       Except.error ⟨IOErrorKind.notFound, "No .sln files found"⟩) :=
  ⟨fun _ => ⟨_, rfl⟩, fun _ _ => rfl, fun _ _ => rfl⟩

/-- C4 (confirmed): a line whose trimmed form does not start with
`Project(` contributes nothing; a matching line with a second
comma-separated field contributes that field, whitespace-trimmed and
double-quote-stripped; a matching line without a second field is skipped;
the worked example extracts exactly `src/MyApp/MyApp.csproj`; and a
two-line text is extracted in line order. -/
theorem C4_theorem :
    (∀ line, starts_with (rust_trim line) "Project(" = false →
       sln_extract_line line = none) ∧
    (∀ line f, starts_with (rust_trim line) "Project(" = true →
       (rust_split ',' line)[1]? = some f →
       sln_extract_line line = some (rust_trim_matches '"' (rust_trim f))) ∧
    (∀ line, starts_with (rust_trim line) "Project(" = true →
       (rust_split ',' line)[1]? = none →
       sln_extract_line line = none) ∧
    parse_sln_text "Project(\"\x7bA\x7d\") = \"MyApp\", \"src/MyApp/MyApp.csproj\", \"\x7bB\x7d\"" =
      ["src/MyApp/MyApp.csproj"] ∧
    parse_sln_text "Project(alpha, one\nProject(beta, two" = ["one", "two"] := by
  refine ⟨?_, ?_, ?_, by decide, by decide⟩
  · intro line h
    simp [sln_extract_line, h]
  · intro line f h h1
    simp [sln_extract_line, h, h1]
  · intro line h h1
    simp [sln_extract_line, h, h1]

/-- Witness for C4: a non-matching line, a matching line with no second
comma field, and a matching line with one, each evaluated concretely. -/
theorem C4_witness :
    sln_extract_line "hello" = none ∧
    sln_extract_line "Project(noComma" = none ∧
    sln_extract_line "Project(a, \"w\"" = some "w" :=
  ⟨C4_theorem.1 "hello" (by decide),
   C4_theorem.2.2.1 "Project(noComma" (by decide) (by decide),
   C4_theorem.2.1 "Project(a, \"w\"" " \"w\"" (by decide) (by decide)⟩

/-- C6, counterexample: in a projects-mode state with an empty project list
and selection index 5, a move command is not a no-op - it rewrites the
index to 0. -/
theorem C6_counterexample :
    current_len app_idx_five = 0 ∧
    move_selection app_idx_five 1 ≠ app_idx_five ∧
    (move_selection app_idx_five 1).selected = some 0 := by
  decide

/-- C6 (amended): with no selection a move is a no-op; on a non-empty list
the new index is the saturating add clamped to the maximum valid index and
lies in `[0, len-1]`; on an empty list the move sets the index to 0
(never panicking or underflowing), which is a no-op exactly when the index
already was 0. -/
theorem C6_amended_theorem (a : App) (d : Int) :
    (a.selected = none → move_selection a d = a) ∧
    (∀ c, a.selected = some c → 0 < current_len a →
       (move_selection a d).selected =
         some (Nat.min (saturating_add_signed c d) (current_len a - 1)) ∧
       Nat.min (saturating_add_signed c d) (current_len a - 1) < current_len a) ∧
    (∀ c, a.selected = some c → current_len a = 0 →
       move_selection a d = { a with selected := some 0 }) := by
  refine ⟨?_, ?_, ?_⟩
  · intro h
    simp [move_selection, h]
  · intro c h hlen
    refine ⟨by simp [move_selection, h], ?_⟩
    exact Nat.lt_of_le_of_lt (Nat.min_le_right _ _) (Nat.sub_lt hlen Nat.one_pos)
  · intro c h hlen
    simp [move_selection, h, hlen]

/-- Witness for C6 (amended): a non-empty projects list clamps the move to
index 0; an empty list with stale index 5 resets to 0. -/
theorem C6_amended_witness :
    (move_selection app_one_project 1).selected = some 0 ∧
    move_selection app_idx_five (-1) = { app_idx_five with selected := some 0 } :=
  ⟨((C6_amended_theorem app_one_project 1).2.1 0 rfl (by decide)).1,
   (C6_amended_theorem app_idx_five (-1)).2.2 5 rfl (by decide)⟩

/-- C7 (confirmed): the Launch Profile Detector returns `none` when the
file read fails, the text does not parse as JSON, there is no top-level
`profiles` key, or its value is not an object; when the value is an object
it returns the object's first key in iteration order (`none` for an empty
object); and its result is determined by the file content and the JSON
parse alone. -/
theorem C7_theorem :
    (∀ env path e, env.fs path = Except.error e →
       detect_launch_profile env path = none) ∧
    (∀ env path c, env.fs path = Except.ok c → env.parseJson c = none →
       detect_launch_profile env path = none) ∧
    (∀ env path c j, env.fs path = Except.ok c → env.parseJson c = some j →
       jsonGet j "profiles" = none →
       detect_launch_profile env path = none) ∧
    (∀ env path c j v, env.fs path = Except.ok c → env.parseJson c = some j →
       jsonGet j "profiles" = some v → (∀ fields, v ≠ Json.obj fields) →
       detect_launch_profile env path = none) ∧
    (∀ env path c j fields, env.fs path = Except.ok c → env.parseJson c = some j →
       jsonGet j "profiles" = some (Json.obj fields) →
       detect_launch_profile env path = (fields.map (fun kv => kv.1)).head?) ∧
    (∀ e1 e2 p1 p2, e1.fs p1 = e2.fs p2 → e1.parseJson = e2.parseJson →
       detect_launch_profile e1 p1 = detect_launch_profile e2 p2) := by
  refine ⟨?_, ?_, ?_, ?_, ?_, ?_⟩
  · intro env path e h
    simp [detect_launch_profile, h]
  · intro env path c h h1
    simp [detect_launch_profile, h, h1]
  · intro env path c j h h1 h2
    simp [detect_launch_profile, h, h1, h2]
  · intro env path c j v h h1 h2 hne
    cases v with
    | obj fields => exact absurd rfl (hne fields)
    | null => simp [detect_launch_profile, h, h1, h2]
    | bool b => simp [detect_launch_profile, h, h1, h2]
    | num n => simp [detect_launch_profile, h, h1, h2]
    | str s => simp [detect_launch_profile, h, h1, h2]
    | arr elems => simp [detect_launch_profile, h, h1, h2]
  · intro env path c j fields h h1 h2
    simp [detect_launch_profile, h, h1, h2]
  · intro e1 e2 p1 p2 hfs hpj
    unfold detect_launch_profile
    rw [hfs, hpj]

/-- Witness for C7: under `env_cfg` the detector finds `https`, the first
profile key in iteration order, and returns `none` for an unreadable
path. -/
theorem C7_witness :
    detect_launch_profile env_cfg "proj/Properties/launchSettings.json" = some "https" ∧
    detect_launch_profile env_cfg "other.json" = none :=
  ⟨C7_theorem.2.2.2.2.1 env_cfg "proj/Properties/launchSettings.json" "cfg"
     (Json.obj [("profiles", Json.obj [("https", Json.null), ("http", Json.null)])])
     [("https", Json.null), ("http", Json.null)] rfl rfl rfl,
   C7_theorem.1 env_cfg "other.json" ⟨.notFound, "missing"⟩ rfl⟩

/-- C5 (confirmed): in solutions mode, when the selected solution exists
and parses successfully, Enter sets the active solution to the one at the
selection index, replaces the whole project list with the fresh parse
result, switches the mode to projects, and resets the selection to 0 -
with no condition relating the new list's length to the old index. -/
theorem C5_theorem (env : Env) (a : App) (i : Nat) (sln : String) (ps : List String)
    (hmode : a.showing_projects = false)
    (hsel : a.selected = some i)
    (hget : a.sln_files[i]? = some sln)
    (hparse : parse_sln_for_projects (env.fs sln) = Except.ok ps) :
    (handle_key env KeyCode.enter a).outcome = Outcome.ok ∧
    (handle_key env KeyCode.enter a).state.selected_sln = sln ∧
    (handle_key env KeyCode.enter a).state.projects = ps ∧
    (handle_key env KeyCode.enter a).state.showing_projects = true ∧
    (handle_key env KeyCode.enter a).state.selected = some 0 := by
  have hsol : select_solution env a =
      ⟨{ a with selected_sln := sln, projects := ps,
                showing_projects := true, selected := some 0 },
       Outcome.ok, []⟩ := by
    simp [select_solution, hsel, hget, hparse]
  have henter : on_enter_key env a =
      ⟨{ a with selected_sln := sln, projects := ps,
                showing_projects := true, selected := some 0 },
       Outcome.ok, []⟩ := by
    simp [on_enter_key, hmode, hsol]
  refine ⟨?_, ?_, ?_, ?_, ?_⟩ <;> simp [handle_key, henter, add_log]

/-- Witness for C5: confirming the second of two solutions, whose text
parses to an empty project list (shorter than the prior selection index 1),
still resets the selection to 0 and switches to projects mode. -/
theorem C5_witness :
    (handle_key env_sln KeyCode.enter app_two_sln).outcome = Outcome.ok ∧
    (handle_key env_sln KeyCode.enter app_two_sln).state.selected_sln = "root/b.sln" ∧
    (handle_key env_sln KeyCode.enter app_two_sln).state.projects = ([] : List String) ∧
    (handle_key env_sln KeyCode.enter app_two_sln).state.showing_projects = true ∧
    (handle_key env_sln KeyCode.enter app_two_sln).state.selected = some 0 :=
  C5_theorem env_sln app_two_sln 1 "root/b.sln" [] rfl rfl (by decide) rfl

/-- C9 (confirmed): the mode never goes back from projects to solutions -
one key press preserves projects mode, a whole session preserves it, and
the only key press that ever changes the mode at all is Enter, which
switches solutions mode to projects mode. -/
theorem C9_theorem :
    (∀ env k a, a.showing_projects = true →
       (handle_key env k a).state.showing_projects = true) ∧
    (∀ env inputs a, a.showing_projects = true →
       (run_session env a inputs).state.showing_projects = true) ∧
    (∀ env k a, (handle_key env k a).state.showing_projects ≠ a.showing_projects →
       a.showing_projects = false ∧
       (handle_key env k a).state.showing_projects = true ∧ k = KeyCode.enter) := by
  refine ⟨?_, ?_, ?_⟩
  · intro env k a h
    rcases handle_key_mode env k a with hh | hh
    · rw [hh]; exact h
    · exact hh.1
  · intro env inputs a h
    exact run_session_mode env inputs a h
  · intro env k a hne
    rcases handle_key_mode env k a with hh | hh
    · exact absurd hh hne
    · refine ⟨?_, hh.1, hh.2⟩
      cases hb : a.showing_projects
      · rfl
      · exact absurd (hh.1.trans hb.symm) hne

/-- Witness for C9: a projects-mode session stays in projects mode across
a concrete key sequence. -/
theorem C9_witness :
    (run_session env_build_fail app_no_projects
       [KeyCode.up, KeyCode.down, KeyCode.otherKey]).state.showing_projects = true :=
  C9_theorem.2.1 env_build_fail [KeyCode.up, KeyCode.down, KeyCode.otherKey]
    app_no_projects rfl

/-- C10 (confirmed): a successful startup makes the active solution an
element of the discovered list (its first element), and over any session
the solution list is never mutated while the active solution remains an
element of it - so the exit summary always names a discovered solution. -/
theorem C10_theorem :
    (∀ env items a, App.new env items = Except.ok a →
       a.selected_sln ∈ a.sln_files) ∧
    (∀ env inputs a, a.selected_sln ∈ a.sln_files →
       (run_session env a inputs).state.sln_files = a.sln_files ∧
       (run_session env a inputs).state.selected_sln ∈ a.sln_files) := by
  constructor
  · intro env items a h
    unfold App.new at h
    cases hfl : find_sln_files items with
    | error e => rw [hfl] at h; cases h
    | ok files =>
      rw [hfl] at h
      cases files with
      | nil => simp at h
      | cons x xs =>
        simp only [List.head?] at h
        cases hp : parse_sln_for_projects (env.fs x) with
        | error e => rw [hp] at h; cases h
        | ok ps =>
          rw [hp] at h
          injection h with h2
          subst h2
          exact List.mem_cons_self x xs
  · intro env inputs a h
    exact run_session_sln env inputs a h

/-- Witness for C10: a concrete session leaves the solution list intact
and the active solution an element of it. -/
theorem C10_witness :
    (run_session env_build_fail app_one_project
       [KeyCode.up, KeyCode.esc]).state.sln_files = app_one_project.sln_files ∧
    (run_session env_build_fail app_one_project
       [KeyCode.up, KeyCode.esc]).state.selected_sln ∈ app_one_project.sln_files :=
  C10_theorem.2 env_build_fail [KeyCode.up, KeyCode.esc] app_one_project (by decide)

/-- C1, counterexample: under a failing build, the session processing
Enter followed by Down ends with the propagating `Build failed` error -
the loop did not continue (the exit flag was never set; the remaining
input is unprocessed) - even though the stderr was reported and no run
was spawned. -/
theorem C1_counterexample :
    (run_session env_build_fail app_one_project [KeyCode.enter, KeyCode.down]).outcome =
      Outcome.ioErr ⟨IOErrorKind.otherKind, "Build failed"⟩ ∧
    (run_session env_build_fail app_one_project [KeyCode.enter, KeyCode.down]).state.exit = false ∧
    (run_session env_build_fail app_one_project [KeyCode.enter, KeyCode.down]).effects =
      [Effect.printLn "Running project: p.csproj",
       Effect.buildInvoked "root/p.csproj",
       Effect.eprintLn "Build failed: boom"] := by
  decide

/-- C1 (amended): when the build exits non-zero the orchestrator reports
the captured stderr and never spawns the run command, but the resulting
`Build failed` error propagates through the Enter handler and terminates
the interactive loop - a build failure ends the session rather than being
recovered from. -/
theorem C1_amended_theorem (env : Env) (a : App) (i : Nat)
    (project sln_dir project_dir : String) (out : BuildOutput)
    (hmode : a.showing_projects = true)
    (hsel : a.selected = some i)
    (hget : a.projects[i]? = some project)
    (hpar : env.parent a.selected_sln = some sln_dir)
    (hdir : (if env.isFile (env.join sln_dir project) then env.parent (env.join sln_dir project)
             else some (env.join sln_dir project)) = some project_dir)
    (hbuild : env.build (env.join sln_dir project) = Except.ok out)
    (hfail : out.success = false) :
    handle_key env KeyCode.enter a =
      ⟨a, Outcome.ioErr ⟨IOErrorKind.otherKind, "Build failed"⟩,
       [Effect.printLn ("Running project: " ++ project),
        Effect.buildInvoked (env.join sln_dir project),
        Effect.eprintLn ("Build failed: " ++ out.stderr)]⟩ ∧
    (∀ d p, Effect.runSpawned d p ∉ (handle_key env KeyCode.enter a).effects) ∧
    (∀ rest, a.exit = false →
       run_session env a (KeyCode.enter :: rest) =
         ⟨a, Outcome.ioErr ⟨IOErrorKind.otherKind, "Build failed"⟩,
          [Effect.printLn ("Running project: " ++ project),
           Effect.buildInvoked (env.join sln_dir project),
           Effect.eprintLn ("Build failed: " ++ out.stderr)]⟩) := by
  have hrun : run_selected_project env a =
      ⟨a, Outcome.ioErr ⟨IOErrorKind.otherKind, "Build failed"⟩,
       [Effect.printLn ("Running project: " ++ project),
        Effect.buildInvoked (env.join sln_dir project),
        Effect.eprintLn ("Build failed: " ++ out.stderr)]⟩ := by
    simp [run_selected_project, hsel, hget, hpar, hdir, hbuild, hfail]
  have henter : on_enter_key env a =
      ⟨a, Outcome.ioErr ⟨IOErrorKind.otherKind, "Build failed"⟩,
       [Effect.printLn ("Running project: " ++ project),
        Effect.buildInvoked (env.join sln_dir project),
        Effect.eprintLn ("Build failed: " ++ out.stderr)]⟩ := by
    simp [on_enter_key, hmode, hrun]
  refine ⟨?_, ?_, ?_⟩
  · simp [handle_key, henter]
  · intro d p
    simp [handle_key, henter]
  · intro rest hexit
    simp [run_session, hexit, handle_key, henter]

/-- Witness for C1 (amended): the concrete failing build yields the
`Build failed` error step with the reported stderr. -/
theorem C1_amended_witness :
    handle_key env_build_fail KeyCode.enter app_one_project =
      ⟨app_one_project, Outcome.ioErr ⟨IOErrorKind.otherKind, "Build failed"⟩,
       [Effect.printLn "Running project: p.csproj",
        Effect.buildInvoked "root/p.csproj",
        Effect.eprintLn "Build failed: boom"]⟩ :=
  (C1_amended_theorem env_build_fail app_one_project 0 "p.csproj" "root"
     "root/p.csproj" ⟨false, "boom"⟩ rfl rfl rfl rfl (by decide) rfl rfl).1

/-- C2, counterexample: in projects mode with an empty project list and
selection index 0 (a state confirming an empty solution produces), Enter
panics on the out-of-bounds indexing; with no selection index it yields a
propagating `No project selected` error - neither is a silent no-op. -/
theorem C2_counterexample :
    (handle_key env_build_fail KeyCode.enter app_no_projects).outcome = Outcome.panicked ∧
    (handle_key env_build_fail KeyCode.enter app_none_sel).outcome =
      Outcome.ioErr ⟨IOErrorKind.notFound, "No project selected"⟩ := by
  decide

/-- C2 (amended): in projects mode a confirm with no selection index
returns a `No project selected` error that propagates and terminates the
interactive loop, and a confirm whose selection index is out of range of
the project list (in particular any index over an empty list) panics;
confirming with nothing selected is never a silent no-op. -/
theorem C2_amended_theorem (env : Env) (a : App)
    (hmode : a.showing_projects = true) :
    (a.selected = none →
       handle_key env KeyCode.enter a =
         ⟨a, Outcome.ioErr ⟨IOErrorKind.notFound, "No project selected"⟩, []⟩ ∧
       ∀ rest, a.exit = false →
         run_session env a (KeyCode.enter :: rest) =
           ⟨a, Outcome.ioErr ⟨IOErrorKind.notFound, "No project selected"⟩, []⟩) ∧
    (∀ i, a.selected = some i → a.projects.length ≤ i →
       (handle_key env KeyCode.enter a).outcome = Outcome.panicked) := by
  constructor
  · intro hsel
    have hrun : run_selected_project env a =
        ⟨a, Outcome.ioErr ⟨IOErrorKind.notFound, "No project selected"⟩, []⟩ := by
      simp [run_selected_project, hsel]
    have henter : on_enter_key env a =
        ⟨a, Outcome.ioErr ⟨IOErrorKind.notFound, "No project selected"⟩, []⟩ := by
      simp [on_enter_key, hmode, hrun]
    refine ⟨by simp [handle_key, henter], ?_⟩
    intro rest hexit
    simp [run_session, hexit, handle_key, henter]
  · intro i hsel hlen
    have hnone : a.projects[i]? = none := by
      exact List.getElem?_eq_none hlen
    have hrun : run_selected_project env a = ⟨a, Outcome.panicked, []⟩ := by
      simp [run_selected_project, hsel, hnone]
    simp [handle_key, on_enter_key, hmode, hrun]

/-- Witness for C2 (amended): the error step for the no-selection state
and the panic for the empty-list state, concretely. -/
theorem C2_amended_witness :
    handle_key env_build_fail KeyCode.enter app_none_sel =
      ⟨app_none_sel, Outcome.ioErr ⟨IOErrorKind.notFound, "No project selected"⟩, []⟩ ∧
    (handle_key env_build_fail KeyCode.enter app_no_projects).outcome = Outcome.panicked :=
  ⟨((C2_amended_theorem env_build_fail app_none_sel rfl).1 rfl).1,
   (C2_amended_theorem env_build_fail app_no_projects rfl).2 0 rfl (by decide)⟩

/-- C8 (confirmed): on confirm of a project, the project path is the join
of the solution's parent directory with the reference; the working/launch
directory is the file's parent when that path is a regular file and the
path itself otherwise; on build success the run command is spawned with
that directory as current directory and with the profile found by the
detector at `<dir>/Properties/launchSettings.json` exactly when one was
found; the spawn is detached - the model's spawn yields no exit status
and the orchestrator completes with `ok` without consulting the child. -/
theorem C8_theorem (env : Env) (a : App) (i : Nat)
    (project sln_dir project_path project_dir lsp : String)
    (prof : Option String) (out : BuildOutput)
    (hsel : a.selected = some i)
    (hget : a.projects[i]? = some project)
    (hpar : env.parent a.selected_sln = some sln_dir)
    (hpp : project_path = env.join sln_dir project)
    (hdir : (if env.isFile project_path then env.parent project_path
             else some project_path) = some project_dir)
    (hlsp : lsp = env.join (env.join project_dir "Properties") "launchSettings.json")
    (hprof : prof = detect_launch_profile env lsp)
    (hbuild : env.build project_path = Except.ok out)
    (hok : out.success = true)
    (hspawn : env.spawnRun project_dir prof = Except.ok ()) :
    run_selected_project env a =
      ⟨a, Outcome.ok,
       [Effect.printLn ("Running project: " ++ project),
        Effect.buildInvoked project_path,
        Effect.printLn "Build successful! Running ...",
        profile_msg prof,
        Effect.runSpawned project_dir prof]⟩ := by
  subst hpp
  subst hlsp
  subst hprof
  simp [run_selected_project, hsel, hget, hpar, hdir, hbuild, hok, hspawn]

/-- Witness for C8: under `env_run` the joined path is a regular file, so
the working directory is its parent `root/proj`; the detector finds the
profile `https` there and the run is spawned in that directory with it. -/
theorem C8_witness :
    run_selected_project env_run app_c8 =
      ⟨app_c8, Outcome.ok,
       [Effect.printLn "Running project: proj/app.csproj",
        Effect.buildInvoked "root/proj/app.csproj",
        Effect.printLn "Build successful! Running ...",
        Effect.printLn "Detected launch profile: https",
        Effect.runSpawned "root/proj" (some "https")]⟩ :=
  C8_theorem env_run app_c8 0 "proj/app.csproj" "root" "root/proj/app.csproj"
    "root/proj" "root/proj/Properties/launchSettings.json" (some "https")
    ⟨true, ""⟩ rfl rfl rfl rfl (by decide) rfl rfl rfl rfl rfl
